import Mathlib

/-!
Shallow embedding of the Bigbob-verify backend (src/bot) for checking the
natural-language specification against the code.

Timestamps are modelled as integers (`Int`); each Python call to
`datetime.utcnow()` within one operation is modelled by a single explicit
`now` parameter.  Database tables are lists of row structures; SQLAlchemy
row updates (which hit the database as `UPDATE ... WHERE`) are modelled by
mapping an update function over the list, guarded by the row key.
Randomly generated values (verification codes) and externally supplied
values (HMAC validity, Roblox fetch results) are passed as parameters.
-/

namespace Bigbob

/-- Status enum `VerificationStatus` from src/bot/models.py. -/
inductive VerificationStatus where
  | pending
  | used
  | expired
deriving DecidableEq, Repr

/-- Status enum `PurchaseStatus` from src/bot/models.py. -/
inductive PurchaseStatus where
  | pending
  | confirmed
  | cancelled
deriving DecidableEq, Repr

/-- A row of the `verifications` table (class `Verification`, src/bot/models.py). -/
structure VerificationRow where
  id : Nat
  telegram_id : Int
  roblox_nick : String
  code : String
  status : VerificationStatus
  expires_at : Int
  created_at : Int
deriving DecidableEq, Repr

/-- A row of the `users` table (class `User`, src/bot/models.py).
Fields not touched by the verification paths (`invited_by`, balance
relationship) are omitted. -/
structure UserRow where
  id : Nat
  telegram_id : Int
  roblox_id : Option Int
  username : Option String
  verified_at : Option Int
  created_at : Int
  last_active : Int
deriving DecidableEq, Repr

/-- The database state the verification engine reads and writes:
the `verifications` and `users` tables. -/
structure VDB where
  verifications : List VerificationRow
  users : List UserRow
deriving DecidableEq, Repr

/-- Result dataclass `VerificationCheckResult` from
src/bot/verification/service.py. -/
structure VerificationCheckResult where
  status : String
  username : String
  telegram_id : Option Int := none
deriving DecidableEq, Repr

/-- Helper `_normalize` from src/bot/verification/service.py:
`(value or "").strip().lower()` (ASCII lowering suffices for the values
considered here). -/
def pyStripLower (value : Option String) : String :=
  ((value.getD "").trim).toLower

/-- Helper `_nicknames_match` from src/bot/verification/service.py. -/
def nicknames_match (expected : String) (provided : Option String) : Bool :=
  match provided with
  | none => true
  | some p => pyStripLower (some expected) == pyStripLower (some p)

/-- The row a SQLAlchemy query `ORDER BY created_at DESC` + `.scalar()`
returns from a list of candidate rows: the row with the greatest
`created_at` (the earliest-listed one on ties, one valid execution of the
unspecified SQL tie order); `none` when no row matches. -/
def latestCreated : List VerificationRow → Option VerificationRow
  | [] => none
  | r :: t =>
    match latestCreated t with
    | none => some r
    | some s => if s.created_at > r.created_at then some s else some r

/-- The service-path lookup in `process_backend_confirmation`
(src/bot/verification/service.py lines 99-103): the latest-created row
whose `code` column equals the given code. -/
def lookupByCode (code : String) (db : VDB) : Option VerificationRow :=
  latestCreated (db.verifications.filter (fun r => r.code == code))

/-- The poll-path lookup in `check_verification_status`
(src/bot/main.py lines 409-416): the latest-created row for the
requester that is still `pending`. -/
def lookupPendingFor (tg : Int) (db : VDB) : Option VerificationRow :=
  latestCreated (db.verifications.filter
    (fun r => r.telegram_id == tg && r.status == VerificationStatus.pending))

/-- UPDATE of the verification row(s) with the given primary key
(`id` is the surrogate primary key of `verifications`). -/
def setVerRow (vid : Nat) (f : VerificationRow → VerificationRow)
    (rows : List VerificationRow) : List VerificationRow :=
  rows.map (fun r => if r.id == vid then f r else r)

/-- Fresh autoincrement id for an inserted `users` row. -/
def nextUserId (db : VDB) : Nat :=
  (db.users.foldl (fun m u => max m u.id) 0) + 1

/-- The `users` upsert performed by `process_backend_confirmation`
(src/bot/verification/service.py lines 134-141).  On insert the ORM
defaults fill `created_at` and `last_active` with `utcnow`; on update the
service sets `roblox_id`, `verified_at` and `last_active`. -/
def upsertUserService (now tg pid : Int) (db : VDB) : List UserRow :=
  match db.users.find? (fun u => u.telegram_id == tg) with
  | none =>
    db.users ++ [{ id := nextUserId db, telegram_id := tg, roblox_id := some pid,
                   username := none, verified_at := some now,
                   created_at := now, last_active := now }]
  | some _ =>
    db.users.map (fun w =>
      if w.telegram_id == tg then
        { w with roblox_id := some pid, verified_at := some now, last_active := now }
      else w)

/-- The `users` upsert performed by the worker `handle_verification`
(src/bot/worker.py lines 44-50) and by the poll path
(src/bot/main.py lines 450-462): identical to the service upsert on
insert, but the update branch does NOT touch `last_active`. -/
def upsertUserWorker (now tg pid : Int) (db : VDB) : List UserRow :=
  match db.users.find? (fun u => u.telegram_id == tg) with
  | none =>
    db.users ++ [{ id := nextUserId db, telegram_id := tg, roblox_id := some pid,
                   username := none, verified_at := some now,
                   created_at := now, last_active := now }]
  | some _ =>
    db.users.map (fun w =>
      if w.telegram_id == tg then
        { w with roblox_id := some pid, verified_at := some now }
      else w)

/-- The row mutation `verification.status = VerificationStatus.expired`. -/
def expireRow (r : VerificationRow) : VerificationRow :=
  { r with status := VerificationStatus.expired }

/-- The row mutation `verification.status = used; verification.expires_at = now`
(the expiry tombstone stamped on successful confirmation). -/
def useRow (now : Int) (r : VerificationRow) : VerificationRow :=
  { r with status := VerificationStatus.used, expires_at := now }

/-- Function `process_backend_confirmation` from src/bot/verification/service.py
(lines 92-153), the backend-confirmation path of the verification
engine. -/
def process_backend_confirmation (now : Int) (username : Option String)
    (code : String) (player_id : Int) (db : VDB) :
    VerificationCheckResult × VDB :=
  match lookupByCode code db with
  | none => ({ status := "not_found", username := username.getD "" }, db)
  | some v =>
    if v.status == VerificationStatus.used then
      ({ status := "already_verified", username := v.roblox_nick }, db)
    else if v.expires_at < now then
      let rows := setVerRow v.id expireRow db.verifications
      ({ status := "expired", username := v.roblox_nick },
       { db with verifications := rows })
    else if ! nicknames_match v.roblox_nick username then
      ({ status := "mismatch", username := v.roblox_nick }, db)
    else
      let rows := setVerRow v.id (useRow now) db.verifications
      let users := upsertUserService now v.telegram_id player_id db
      ({ status := "verified", username := v.roblox_nick,
         telegram_id := some v.telegram_id },
       { db with verifications := rows, users := users })

/-- Function `handle_verification` from src/bot/worker.py (lines 28-51), the
worker-side dispatch of a `verification` event: the row lookup filters on
`status == pending` and uses no ORDER BY (first row in table order). -/
def handle_verification (now : Int) (code : String) (player_id : Int)
    (db : VDB) : VDB :=
  match db.verifications.find?
      (fun r => r.code == code && r.status == VerificationStatus.pending) with
  | none => db
  | some v =>
    if v.expires_at < now then
      let rows := setVerRow v.id expireRow db.verifications
      { db with verifications := rows }
    else
      let rows := setVerRow v.id (useRow now) db.verifications
      let users := upsertUserWorker now v.telegram_id player_id db
      { db with verifications := rows, users := users }

/-- The `UPDATE verifications SET status=expired WHERE telegram_id=tg AND
status=pending` issued by `create_verification_request`
(src/bot/verification/service.py lines 50-57), applied to one row. -/
def expireIfPendingFor (tg : Int) (r : VerificationRow) : VerificationRow :=
  if r.telegram_id == tg && r.status == VerificationStatus.pending then
    { r with status := VerificationStatus.expired }
  else r

/-- Fresh autoincrement id for an inserted `verifications` row. -/
def nextVerificationId (db : VDB) : Nat :=
  (db.verifications.foldl (fun m r => max m r.id) 0) + 1

/-- Function `create_verification_request` from src/bot/verification/service.py
(lines 45-72).  The TTL comes from settings and the code from
`_generate_code` (random); both are parameters here.  Returns the new
state and the inserted row. -/
def create_verification_request (now ttl : Int) (code : String)
    (telegram_id : Int) (nickname : String) (db : VDB) :
    VDB × VerificationRow :=
  let rows := db.verifications.map (expireIfPendingFor telegram_id)
  let newRow : VerificationRow :=
    { id := nextVerificationId db, telegram_id := telegram_id,
      roblox_nick := nickname, code := code,
      status := VerificationStatus.pending,
      expires_at := now + ttl, created_at := now }
  ({ db with verifications := rows ++ [newRow] }, newRow)

/-- The unique index created by migration
src/migrations/versions/fe6e3f55afd3_add_partial_verification_index.py:
`CREATE UNIQUE INDEX uq_verification_active ON verifications (telegram_id)
WHERE status = 'pending'` — no two distinct rows may both be pending with
the same telegram_id; its scope to pending rows leaves non-pending rows
unconstrained. -/
def pendingUniqueIndexOK : List VerificationRow → Bool
  | [] => true
  | r :: t =>
    (!(r.status == VerificationStatus.pending)
      || t.all (fun s =>
           !(s.status == VerificationStatus.pending && s.telegram_id == r.telegram_id)))
    && pendingUniqueIndexOK t

/-! ## Roblox code matching (src/bot/services/roblox.py) -/

/-- Function `normalize_verification_text` from src/bot/services/roblox.py
(lines 75-80): `if not value: return ""` then
`re.sub(r"[\W_]+", "", value.lower())` — lowercase, then keep only
alphanumeric characters (ASCII lowering/classification suffices for the
inputs considered here). -/
def normalize_verification_text (value : Option String) : String :=
  match value with
  | none => ""
  | some s =>
    if s == "" then ""
    else String.mk ((s.data.map Char.toLower).filter Char.isAlphanum)

/-- Whether `needle` matches a leading segment of `hay`. -/
def charsMatchFront : List Char → List Char → Bool
  | [], _ => true
  | _ :: _, [] => false
  | a :: as, b :: bs => a == b && charsMatchFront as bs

/-- Python substring test `needle in hay` over character lists. -/
def charsContain (hay needle : List Char) : Bool :=
  match hay with
  | [] => needle.isEmpty
  | _ :: t => charsMatchFront needle (hay) || charsContain t needle

/-- Function `contains_verification_code` from src/bot/services/roblox.py
(lines 83-88). -/
def contains_verification_code (text code : Option String) : Bool :=
  let normalized_text := normalize_verification_text text
  let normalized_code := normalize_verification_text code
  if normalized_text == "" || normalized_code == "" then false
  else charsContain normalized_text.data normalized_code.data

/-! ## Self-service poll path (src/bot/main.py `check_verification_status`) -/

/-- Outcome of `fetch_profile_by_nickname` as seen by the poll path:
the external Roblox lookup either fails (`RobloxProfileNotFound`,
`RobloxServiceError`) or yields a player id plus profile texts. -/
inductive FetchOutcome where
  | profileNotFound
  | svcError
  | ok (user_id : Int) (description : String) (status_text : String)
deriving DecidableEq, Repr

/-- The distinct replies `check_verification_status` sends. -/
inductive PollReply where
  | no_active
  | code_expired
  | nick_not_found
  | unavailable
  | verified
  | not_matched
deriving DecidableEq, Repr

/-- The Python expression `" ".join(part for part in (profile.description, profile.status) if part)`
from src/bot/main.py lines 444-446. -/
def combineParts (d s : String) : String :=
  if d == "" then (if s == "" then "" else s)
  else (if s == "" then d else d ++ " " ++ s)

/-- Function `check_verification_status` from src/bot/main.py (lines 399-475),
restricted to its database effect and reply category; the Telegram
plumbing (lines 400-406) is outside the data model and the external fetch
result is a parameter. -/
def check_verification_status (now : Int) (tg : Int) (fetch : FetchOutcome)
    (db : VDB) : PollReply × VDB :=
  match lookupPendingFor tg db with
  | none => (PollReply.no_active, db)
  | some v =>
    if v.expires_at < now then
      let rows := setVerRow v.id expireRow db.verifications
      (PollReply.code_expired, { db with verifications := rows })
    else
      match fetch with
      | FetchOutcome.profileNotFound => (PollReply.nick_not_found, db)
      | FetchOutcome.svcError => (PollReply.unavailable, db)
      | FetchOutcome.ok uid d s =>
        if contains_verification_code (some (combineParts d s)) (some v.code) then
          let rows := setVerRow v.id (useRow now) db.verifications
          let users := upsertUserWorker now v.telegram_id uid db
          (PollReply.verified, { db with verifications := rows, users := users })
        else (PollReply.not_matched, db)

/-! ## Purchase layer (src/bot/services/purchases.py) -/

/-- A row of the `items` table (class `Item`, src/bot/models.py). -/
structure ItemRow where
  item_id : String
  name : String
  copies_total : Option Int
  copies_sold : Int
deriving DecidableEq, Repr

/-- A row of the `purchase_requests` table (class `PurchaseRequest`,
src/bot/models.py). -/
structure PurchaseRow where
  request_id : String
  user_id : Int
  item_id : String
  status : PurchaseStatus
  idempotency_key : String
  created_at : Int
  completed_at : Option Int
deriving DecidableEq, Repr

/-- A row of the `balances` table (class `Balance`, src/bot/models.py). -/
structure BalanceRow where
  user_id : Int
  nuts_balance : Int
  reserved_balance : Int
deriving DecidableEq, Repr

/-- The tables the purchase service reads and writes.  The
`admin_actions_log` writes are append-only audit noise not referenced by
any property and are omitted. -/
structure PDB where
  items : List ItemRow
  purchase_requests : List PurchaseRow
  balances : List BalanceRow
deriving DecidableEq, Repr

/-- Lookup `session.get(PurchaseRequest, request_id)` — primary-key lookup. -/
def getPurchaseRequest (rid : String) (db : PDB) : Option PurchaseRow :=
  db.purchase_requests.find? (fun r => r.request_id == rid)

/-- Lookup `session.get(Item, item_id)` — primary-key lookup. -/
def getItem (iid : String) (db : PDB) : Option ItemRow :=
  db.items.find? (fun i => i.item_id == iid)

/-- The check `item.copies_total is not None and item.copies_sold >= item.copies_total`. -/
def soldOut (item : ItemRow) : Bool :=
  match item.copies_total with
  | some t => t ≤ item.copies_sold
  | none => false

/-- UPDATE of the purchase-request row(s) with the given primary key. -/
def setPurchaseRow (rid : String) (f : PurchaseRow → PurchaseRow)
    (rows : List PurchaseRow) : List PurchaseRow :=
  rows.map (fun r => if r.request_id == rid then f r else r)

/-- UPDATE of the item row(s) with the given primary key. -/
def setItemRow (iid : String) (f : ItemRow → ItemRow)
    (rows : List ItemRow) : List ItemRow :=
  rows.map (fun i => if i.item_id == iid then f i else i)

/-- The balance bootstrap in `confirm_purchase`
(src/bot/services/purchases.py lines 64-68): create a zero balance row
for the user when none exists yet. -/
def ensureBalance (uid : Int) (db : PDB) : PDB :=
  match db.balances.find? (fun b => b.user_id == uid) with
  | some _ => db
  | none =>
    { db with balances :=
        db.balances ++ [{ user_id := uid, nuts_balance := 0, reserved_balance := 0 }] }

/-- Function `confirm_purchase` from src/bot/services/purchases.py (lines 51-87).
Returns the Python return value (the possibly mutated request, or None)
together with the resulting state. -/
def confirm_purchase (now : Int) (rid : String) (db : PDB) :
    Option PurchaseRow × PDB :=
  match getPurchaseRequest rid db with
  | none => (none, db)
  | some req =>
    if req.status == PurchaseStatus.confirmed then (some req, db)
    else if !(req.status == PurchaseStatus.pending) then (none, db)
    else
      match getItem req.item_id db with
      | none => (none, db)
      | some item =>
        let db1 := ensureBalance req.user_id db
        if soldOut item then
          let rows := setPurchaseRow rid
            (fun r => { r with status := PurchaseStatus.cancelled })
            db1.purchase_requests
          (some { req with status := PurchaseStatus.cancelled },
           { db1 with purchase_requests := rows })
        else
          let rows := setPurchaseRow rid
            (fun r => { r with status := PurchaseStatus.confirmed,
                               completed_at := some now })
            db1.purchase_requests
          let items := setItemRow item.item_id
            (fun i => { i with copies_sold := i.copies_sold + 1 }) db1.items
          (some { req with status := PurchaseStatus.confirmed,
                           completed_at := some now },
           { db1 with purchase_requests := rows, items := items })

/-- Function `create_purchase_request` from src/bot/services/purchases.py
(lines 12-48).  The raised `ValueError`s are modelled as `Except.error`
with the Python messages. -/
def create_purchase_request (now : Int) (rid : String) (uid : Int)
    (iid : String) (key : String) (db : PDB) :
    Except String (PurchaseRow × PDB) :=
  match db.purchase_requests.find? (fun r => r.idempotency_key == key) with
  | some existing => Except.ok (existing, db)
  | none =>
    match getItem iid db with
    | none => Except.error "Item not found"
    | some item =>
      if soldOut item then Except.error "Item sold out"
      else
        let row : PurchaseRow :=
          { request_id := rid, user_id := uid, item_id := iid,
            status := PurchaseStatus.pending, idempotency_key := key,
            created_at := now, completed_at := none }
        Except.ok (row, { db with purchase_requests := db.purchase_requests ++ [row] })

/-- Primary-key uniqueness of the `items` table (`item_id` is the primary
key in src/bot/models.py, class `Item`). -/
def itemIdsNodup (db : PDB) : Prop :=
  (db.items.map (fun i => i.item_id)).Nodup

/-- The inventory-cap invariant: no item has sold more copies than its
cap (vacuous for unlimited items with `copies_total = None`). -/
def capOK (db : PDB) : Prop :=
  ∀ i ∈ db.items, ∀ t : Int, i.copies_total = some t → i.copies_sold ≤ t

/-! ## Webhook + event ledger (src/bot/api/webhook.py `verify_callback`) -/

/-- A row of the `events_queue` table (class `EventQueue`,
src/bot/models.py lines 163-170); `event_id` carries a UNIQUE
constraint. -/
structure EventRow where
  id : Nat
  event_id : String
  payload : String
  enqueued_at : Int
  processed_at : Option Int
deriving DecidableEq, Repr

/-- The state `verify_callback` touches: the durable `events_queue`
ledger and the Redis transport queue (modelled as the list of enqueued
payload strings). -/
structure QState where
  events_queue : List EventRow
  transport : List String
deriving DecidableEq, Repr

/-- The three responses of the endpoint: HTTP 401 on a bad signature, the
duplicate no-op response, and the enqueued-success response. -/
inductive CallbackResp where
  | unauthorized
  | duplicate
  | queued
deriving DecidableEq, Repr

/-- Fresh autoincrement id for an inserted `events_queue` row. -/
def nextEventId (q : QState) : Nat :=
  (q.events_queue.foldl (fun m e => max m e.id) 0) + 1

/-- Endpoint `verify_callback` from src/bot/api/webhook.py (lines 53-77).  HMAC
validity of the signed body is a parameter (`verify_hmac` is pure I/O
over the raw body); `payloadJson` stands for `json.dumps(event)`.
Inserting a ledger row with an existing `event_id` violates the UNIQUE
constraint: the commit raises `IntegrityError`, the session is rolled
back and the duplicate response is returned before `enqueue_event`. -/
def verify_callback (now : Int) (hmacOk : Bool) (event_id : String)
    (payloadJson : String) (q : QState) : CallbackResp × QState :=
  if !hmacOk then (CallbackResp.unauthorized, q)
  else if q.events_queue.any (fun e => e.event_id == event_id) then
    (CallbackResp.duplicate, q)
  else
    let row : EventRow :=
      { id := nextEventId q, event_id := event_id, payload := payloadJson,
        enqueued_at := now, processed_at := none }
    (CallbackResp.queued,
     { events_queue := q.events_queue ++ [row],
       transport := q.transport ++ [payloadJson] })

/-! ## Python name resolution for src/bot/models.py (claim C3)

With `from __future__ import annotations` in force, the type annotations
in a class body are not evaluated, but every right-hand-side expression
(the `mapped_column(...)` calls and their arguments) is evaluated when
the module loads, resolving each name against the module globals, the names
bound earlier in the module, and the builtins.  An unresolvable name
raises `NameError` and aborts the module import. -/

/-- The Python builtin names the evaluated expressions of
src/bot/models.py may refer to. -/
def pythonBuiltins : List String :=
  ["True", "False", "None", "int", "str", "bool", "float"]

/-- Names bound by the import statements at the top of
src/bot/models.py (lines 1-8). -/
def modelsImportedNames : List String :=
  ["enum", "datetime", "Optional", "DateTime", "SAEnum", "ForeignKey",
   "String", "UniqueConstraint", "DeclarativeBase", "Mapped",
   "mapped_column", "relationship"]

/-- Module-level names bound by the statements of src/bot/models.py that
execute before the `AdminToken` class body (lines 11-135). -/
def modelsNamesBeforeAdminToken : List String :=
  ["VerificationStatus", "PurchaseStatus", "ReferralStatus", "AdminRole",
   "Base", "User", "Balance", "Verification", "Referral", "PromoCodeType",
   "PromoCode", "Item", "PurchaseRequest", "Admin"]

/-- The names the `AdminToken` class statement evaluates, in evaluation
order (src/bot/models.py lines 138-149): the base class reference, then
per column the argument expressions of each `mapped_column(...)` call.
Line 148 passes `nullable=Tru`. -/
def adminTokenEvaluatedNames : List String :=
  ["Base",
   "mapped_column", "True",
   "mapped_column", "True", "True", "False",
   "mapped_column", "SAEnum", "AdminRole", "False",
   "mapped_column", "ForeignKey",
   "mapped_column", "ForeignKey", "True",
   "mapped_column", "DateTime", "True",
   "mapped_column", "ForeignKey", "True",
   "mapped_column", "DateTime", "Tru",
   "mapped_column", "DateTime", "False"]

/-- The same evaluation sequence with line 148 spelled `nullable=True`,
as every sibling column writes it. -/
def adminTokenEvaluatedNamesFixed : List String :=
  adminTokenEvaluatedNames.map (fun n => if n == "Tru" then "True" else n)

/-- Python name resolution: the first referenced name not bound in the
enclosing scopes, if any.  Evaluation of the class body raises
`NameError` at the first such name. -/
def firstUnboundName (bound refs : List String) : Option String :=
  refs.find? (fun n => !(bound.contains n))

/-- Importing src/bot/models.py: evaluating the module body reaches the
`AdminToken` class statement with the listed names in scope; a `NameError`
there propagates out of the import. -/
def loadBotModels : Except String Unit :=
  match firstUnboundName
      (pythonBuiltins ++ modelsImportedNames ++ modelsNamesBeforeAdminToken)
      adminTokenEvaluatedNames with
  | some n => Except.error ("NameError: name " ++ n ++ " is not defined")
  | none => Except.ok ()

/-- Importing any module of the package that does `from .models import ...`
or `from ..models import ...` (src/bot/verification/service.py,
src/bot/worker.py, src/bot/services/purchases.py, src/bot/api/webhook.py,
src/bot/db.py, src/bot/main.py): Python executes the models module first,
so its `NameError` propagates and the dependent module never finishes
loading. -/
def loadModuleDependingOnModels : Except String Unit := do
  loadBotModels

/-! ## Concrete states used by counterexamples and witnesses -/

/-- A verifications row superseded to `expired` by a later issuance while
its TTL has not yet elapsed (`expires_at = 100` against `now = 50`). -/
def supersededRow : VerificationRow :=
  { id := 1, telegram_id := 7, roblox_nick := "Foo", code := "BB-AAAA11",
    status := VerificationStatus.expired, expires_at := 100, created_at := 0 }

/-- State for claim C1: one superseded (expired, future-dated) attempt
and an empty users table. -/
def c1db : VDB := { verifications := [supersededRow], users := [] }

/-- A pending, unexpired attempt. -/
def pendingRow : VerificationRow :=
  { id := 1, telegram_id := 7, roblox_nick := "Foo", code := "BB-AAAA11",
    status := VerificationStatus.pending, expires_at := 100, created_at := 0 }

/-- A pre-existing users row for requester 7 with `last_active = 0`. -/
def staleUser : UserRow :=
  { id := 1, telegram_id := 7, roblox_id := none, username := none,
    verified_at := none, created_at := 0, last_active := 0 }

/-- State for the C4 counterexample: one pending attempt and an existing
users row whose `last_active` only the service path refreshes. -/
def c4db : VDB := { verifications := [pendingRow], users := [staleUser] }

/-- State for witnesses over the verification paths: one pending attempt,
no users row. -/
def w4db : VDB := { verifications := [pendingRow], users := [] }

/-- A pending attempt whose TTL has already elapsed at `now = 50`. -/
def stalePendingRow : VerificationRow :=
  { id := 1, telegram_id := 7, roblox_nick := "Foo", code := "BB-AAAA11",
    status := VerificationStatus.pending, expires_at := 20, created_at := 0 }

/-- State for the C6 witness: one pending attempt past its TTL and one
unrelated users row. -/
def c6db : VDB := { verifications := [stalePendingRow], users := [staleUser] }

/-- State for the C7 witness: a capped item with one copy left, one
pending, one confirmed and one cancelled request. -/
def c7db : PDB :=
  { items := [{ item_id := "hat", name := "Hat", copies_total := some 1,
                copies_sold := 0 }],
    purchase_requests :=
      [{ request_id := "req-p", user_id := 10, item_id := "hat",
         status := PurchaseStatus.pending, idempotency_key := "k1",
         created_at := 0, completed_at := none },
       { request_id := "req-c", user_id := 10, item_id := "hat",
         status := PurchaseStatus.confirmed, idempotency_key := "k2",
         created_at := 0, completed_at := some 1 },
       { request_id := "req-x", user_id := 10, item_id := "hat",
         status := PurchaseStatus.cancelled, idempotency_key := "k3",
         created_at := 0, completed_at := none }],
    balances := [] }

/-- State for the C8 witness: one item in stock, no purchase requests. -/
def c8db : PDB :=
  { items := [{ item_id := "hat", name := "Hat", copies_total := some 10,
                copies_sold := 0 }],
    purchase_requests := [], balances := [] }

/-- State for the C9 witness: a ledger holding event "ev-1" and an empty
transport queue. -/
def c9q : QState :=
  { events_queue := [{ id := 1, event_id := "ev-1", payload := "p1",
                       enqueued_at := 0, processed_at := none }],
    transport := [] }

/-! ## Theorems -/

/-- C3: evaluating the model definitions fails before any operation can
run — the `AdminToken` class body (src/bot/models.py line 148) evaluates
the undefined name `Tru` in `nullable=Tru`, so importing the models
module raises `NameError : Tru` (while the sibling spelling `True`
resolves fine), and every module importing the table definitions fails
the same way, leaving every operation that depends on them unreachable. -/
theorem C3_models_import_name_error :
    firstUnboundName
        (pythonBuiltins ++ modelsImportedNames ++ modelsNamesBeforeAdminToken)
        adminTokenEvaluatedNames = some "Tru"
    ∧ loadBotModels = Except.error "NameError: name Tru is not defined"
    ∧ loadModuleDependingOnModels =
        Except.error "NameError: name Tru is not defined"
    ∧ firstUnboundName
        (pythonBuiltins ++ modelsImportedNames ++ modelsNamesBeforeAdminToken)
        adminTokenEvaluatedNamesFixed = none :=
  ⟨rfl, rfl, rfl, rfl⟩

/-- C1 (code bug): `process_backend_confirmation` never tests for
`status = expired` — on an attempt superseded to `expired` whose
`expires_at` (100) is still in the future at call time (50), it returns
"verified" instead of "expired", flips the terminal row back to `used`,
and inserts a users row, instead of leaving both tables unchanged. -/
theorem C1_confirm_backend_resurrects_superseded_attempt :
    (process_backend_confirmation 50 none "BB-AAAA11" 99 c1db).1.status = "verified"
    ∧ (process_backend_confirmation 50 none "BB-AAAA11" 99 c1db).2.verifications
        = [{ supersededRow with status := VerificationStatus.used, expires_at := 50 }]
    ∧ (process_backend_confirmation 50 none "BB-AAAA11" 99 c1db).2.users
        = [{ id := 1, telegram_id := 7, roblox_id := some 99, username := none,
             verified_at := some 50, created_at := 50, last_active := 50 }] := by
  decide

/-- C10: code matching lowercases and strips all non-alphanumeric
characters from both haystack and code before substring comparison, so
"profile text BB-77FF end" contains "bb77ff", "BB-77FF" does not contain
"CC-9999", and any input normalizing to the empty string (including
`None` and the empty string) yields `false`. -/
theorem C10_contains_code_normalization :
    contains_verification_code (some "profile text BB-77FF end") (some "bb77ff") = true
    ∧ contains_verification_code (some "BB-77FF") (some "CC-9999") = false
    ∧ (∀ text code : Option String,
        normalize_verification_text text = "" ∨ normalize_verification_text code = "" →
        contains_verification_code text code = false)
    ∧ (∀ code : Option String, contains_verification_code none code = false)
    ∧ (∀ text : Option String, contains_verification_code text (some "") = false) := by
  refine ⟨by decide, by decide, ?_, ?_, ?_⟩
  · intro text code h
    rcases h with h | h <;> simp [contains_verification_code, h]
  · intro code
    simp [contains_verification_code, normalize_verification_text]
  · intro text
    simp [contains_verification_code, normalize_verification_text]

/-- Witness for C10: the empty-haystack hypothesis is satisfiable and the
theorem discharges it at a concrete input. -/
theorem C10_contains_code_normalization_witness :
    contains_verification_code (some "") (some "bb77ff") = false :=
  C10_contains_code_normalization.2.2.1 (some "") (some "bb77ff")
    (Or.inl (by decide))

/-- C9: with a valid signature, a verify-callback whose event_id is
already in the `events_queue` ledger returns the duplicate success
response with ledger and transport untouched (no second row, no second
enqueue); a fresh event_id appends exactly one ledger row and enqueues
the payload exactly once. -/
theorem C9_duplicate_event_ledger (now : Int) (eid payload : String) (q : QState) :
    (q.events_queue.any (fun e => e.event_id == eid) = true →
      verify_callback now true eid payload q = (CallbackResp.duplicate, q))
    ∧ (q.events_queue.any (fun e => e.event_id == eid) = false →
      verify_callback now true eid payload q =
        (CallbackResp.queued,
         { events_queue := q.events_queue ++
             [{ id := nextEventId q, event_id := eid, payload := payload,
                enqueued_at := now, processed_at := none }],
           transport := q.transport ++ [payload] })) := by
  constructor
  · intro h
    simp [verify_callback, h]
  · intro h
    simp [verify_callback, h]

/-- Witness for C9: both hypotheses discharged on the concrete ledger
`c9q` — "ev-1" is a duplicate, "ev-2" is fresh. -/
theorem C9_duplicate_event_ledger_witness :
    verify_callback 5 true "ev-1" "p1x" c9q = (CallbackResp.duplicate, c9q)
    ∧ verify_callback 5 true "ev-2" "p2" c9q =
        (CallbackResp.queued,
         { events_queue := c9q.events_queue ++
             [{ id := nextEventId c9q, event_id := "ev-2", payload := "p2",
                enqueued_at := 5, processed_at := none }],
           transport := c9q.transport ++ ["p2"] }) :=
  ⟨(C9_duplicate_event_ledger 5 "ev-1" "p1x" c9q).1 (by decide),
   (C9_duplicate_event_ledger 5 "ev-2" "p2" c9q).2 (by decide)⟩

/-- After the supersede UPDATE of issuance, no row of the old table is
still pending for the requester. -/
theorem expireIfPendingFor_kills_pending (tg : Int) (r : VerificationRow) :
    ((expireIfPendingFor tg r).telegram_id == tg
      && (expireIfPendingFor tg r).status == VerificationStatus.pending) = false := by
  unfold expireIfPendingFor
  split
  · simp
  · next h => simpa using h

/-- Filtering the superseded table for pending rows of the requester
yields nothing. -/
theorem filter_pending_after_supersede (tg : Int) (l : List VerificationRow) :
    ((l.map (expireIfPendingFor tg)).filter
      (fun r => r.telegram_id == tg && r.status == VerificationStatus.pending)) = [] := by
  induction l with
  | nil => rfl
  | cons a t ih =>
    simp only [List.map_cons, List.filter_cons, expireIfPendingFor_kills_pending]
    simpa using ih

/-- C2: issuance is supersede-then-insert — after any
`create_verification_request` call the only pending row for the
requester is the freshly inserted one; the new table is the old table
with prior pending rows of that requester flipped to `expired` (rows are
retained, never deleted, so the length grows by exactly one and every
previously pending row survives as an `expired` row); and the
`uq_verification_active` unique index of migration fe6e3f55afd3 is
scoped to pending rows: it admits two expired rows for one requester and
rejects two pending ones. -/
theorem C2_issue_supersede_then_insert (db : VDB) (now ttl tg : Int)
    (code nick : String) :
    ((create_verification_request now ttl code tg nick db).1.verifications.filter
        (fun r => r.telegram_id == tg && r.status == VerificationStatus.pending))
      = [(create_verification_request now ttl code tg nick db).2]
    ∧ (create_verification_request now ttl code tg nick db).1.verifications
        = db.verifications.map (expireIfPendingFor tg)
          ++ [(create_verification_request now ttl code tg nick db).2]
    ∧ (create_verification_request now ttl code tg nick db).1.verifications.length
        = db.verifications.length + 1
    ∧ (∀ r ∈ db.verifications, r.telegram_id = tg →
        r.status = VerificationStatus.pending →
        { r with status := VerificationStatus.expired }
          ∈ (create_verification_request now ttl code tg nick db).1.verifications)
    ∧ pendingUniqueIndexOK [supersededRow, { supersededRow with id := 2 }] = true
    ∧ pendingUniqueIndexOK [pendingRow, { pendingRow with id := 2 }] = false := by
  refine ⟨?_, rfl, ?_, ?_, by decide, by decide⟩
  · simp only [create_verification_request, List.filter_append,
      filter_pending_after_supersede]
    simp
  · simp [create_verification_request]
  · intro r hr htg hst
    simp only [create_verification_request]
    apply List.mem_append_left
    refine List.mem_map.mpr ⟨r, hr, ?_⟩
    simp [expireIfPendingFor, htg, hst]

/-- Witness for C2: the retention clause discharged on a concrete state —
the pending row of `w4db` survives issuance as an expired row. -/
theorem C2_issue_supersede_then_insert_witness :
    { pendingRow with status := VerificationStatus.expired }
      ∈ (create_verification_request 50 600 "BB-BBBB22" 7 "Bar" w4db).1.verifications :=
  (C2_issue_supersede_then_insert w4db 50 600 7 "BB-BBBB22" "Bar").2.2.2.1
    pendingRow (by decide) rfl rfl

/-- Constructor disequality for the status enum, as a `BEq` rewrite. -/
theorem vs_pending_beq_used :
    (VerificationStatus.pending == VerificationStatus.used) = false := rfl

/-- Fact `used == used` for the status enum, as a `BEq` rewrite. -/
theorem vs_used_beq_used :
    (VerificationStatus.used == VerificationStatus.used) = true := rfl

/-- When the rows carrying a code are exactly `[v]`, the service-side
latest-by-`created_at` lookup returns `v`. -/
theorem lookupByCode_of_filter_singleton (code : String) (db : VDB)
    (v : VerificationRow)
    (h : db.verifications.filter (fun r => r.code == code) = [v]) :
    lookupByCode code db = some v := by
  unfold lookupByCode
  rw [h]
  rfl

/-- When the rows carrying a code are exactly `[v]` and `v` is pending,
the worker-side `find?` with the pending filter also returns `v`. -/
theorem find?_pending_of_filter_singleton (code : String) (v : VerificationRow)
    (hpend : v.status = VerificationStatus.pending) :
    ∀ l : List VerificationRow,
      l.filter (fun r => r.code == code) = [v] →
      l.find? (fun r => r.code == code && r.status == VerificationStatus.pending)
        = some v := by
  intro l
  induction l with
  | nil => intro h; simp at h
  | cons a t ih =>
    intro h
    rw [List.filter_cons] at h
    by_cases hc : (a.code == code) = true
    · rw [if_pos hc] at h
      injection h with h1 h2
      subst h1
      have hp : (a.code == code && a.status == VerificationStatus.pending) = true := by
        rw [hc, hpend]
        rfl
      simp [List.find?_cons, hp]
    · rw [if_neg hc] at h
      have hp : (a.code == code && a.status == VerificationStatus.pending) = false := by
        have hcf : (a.code == code) = false := Bool.not_eq_true _ ▸ Bool.of_not_eq_true hc
        simp [hcf]
      simp only [List.find?_cons, hp]
      exact ih h

/-- C4 counterexample: on a state with one pending attempt and an
existing users row, the worker path and the backend-confirmation path end
in different states — the service refreshes `last_active`, the worker
does not. -/
theorem C4_worker_backend_divergence :
    handle_verification 50 "BB-AAAA11" 99 c4db
      ≠ (process_backend_confirmation 50 none "BB-AAAA11" 99 c4db).2 := by
  decide

/-- C4 (amended): the worker dispatch agrees with the backend
confirmation path whenever exactly one stored row bears the code, that
row is pending, and no users row exists yet for its requester: both
then leave identical verifications and users tables (in both the
TTL-expired and the success case).  In general the two paths diverge: on
an existing users row the service additionally refreshes `last_active`,
and the service acts on non-pending rows that the worker ignores. -/
theorem C4_worker_backend_equiv_amended (db : VDB) (now : Int) (code : String)
    (pid : Int) (v : VerificationRow)
    (hfilter : db.verifications.filter (fun r => r.code == code) = [v])
    (hpend : v.status = VerificationStatus.pending)
    (huser : db.users.find? (fun u => u.telegram_id == v.telegram_id) = none) :
    handle_verification now code pid db
      = (process_backend_confirmation now none code pid db).2 := by
  have hsvc : lookupByCode code db = some v :=
    lookupByCode_of_filter_singleton code db v hfilter
  have hw := find?_pending_of_filter_singleton code v hpend db.verifications hfilter
  by_cases hexp : v.expires_at < now
  · simp [handle_verification, process_backend_confirmation, hsvc, hw, hpend,
      vs_pending_beq_used, hexp]
  · simp [handle_verification, process_backend_confirmation, hsvc, hw, hpend,
      vs_pending_beq_used, hexp, nicknames_match, upsertUserService,
      upsertUserWorker, huser]

/-- Witness for C4 (amended): the hypotheses hold on the concrete state
`w4db` and both paths produce the same state there. -/
theorem C4_worker_backend_equiv_amended_witness :
    handle_verification 50 "BB-AAAA11" 99 w4db
      = (process_backend_confirmation 50 none "BB-AAAA11" 99 w4db).2 :=
  C4_worker_backend_equiv_amended w4db 50 "BB-AAAA11" 99 pendingRow
    (by decide) rfl (by decide)

/-- Filtering commutes with mapping a predicate-preserving row update. -/
theorem filter_map_comm (g : VerificationRow → VerificationRow)
    (p : VerificationRow → Bool) (hp : ∀ r, p (g r) = p r)
    (l : List VerificationRow) :
    (l.map g).filter p = (l.filter p).map g := by
  induction l with
  | nil => rfl
  | cons a t ih =>
    simp only [List.map_cons, List.filter_cons, hp a]
    cases h : p a
    · simpa [h] using ih
    · simpa [h] using ih

/-- C5: on an issued pending, unexpired attempt whose code occurs in
exactly one row and whose stored nickname matches the supplied one,
confirming twice with the same code and player id yields "verified" then
"already_verified", and the second call leaves the whole state — in
particular the users (LinkedIdentity) row — exactly as the first call
left it. -/
theorem C5_confirmation_idempotent (db : VDB) (now now2 : Int)
    (username : Option String) (pid : Int) (v : VerificationRow)
    (hfilter : db.verifications.filter (fun r => r.code == v.code) = [v])
    (hpend : v.status = VerificationStatus.pending)
    (hexp : ¬ v.expires_at < now)
    (hnick : nicknames_match v.roblox_nick username = true) :
    (process_backend_confirmation now username v.code pid db).1.status = "verified"
    ∧ (process_backend_confirmation now2 username v.code pid
        (process_backend_confirmation now username v.code pid db).2).1.status
      = "already_verified"
    ∧ (process_backend_confirmation now2 username v.code pid
        (process_backend_confirmation now username v.code pid db).2).2
      = (process_backend_confirmation now username v.code pid db).2 := by
  have hsvc : lookupByCode v.code db = some v :=
    lookupByCode_of_filter_singleton v.code db v hfilter
  have hfirst : process_backend_confirmation now username v.code pid db
      = ({ status := "verified", username := v.roblox_nick,
           telegram_id := some v.telegram_id },
         { db with
             verifications := setVerRow v.id (useRow now) db.verifications,
             users := upsertUserService now v.telegram_id pid db }) := by
    simp [process_backend_confirmation, hsvc, hpend, vs_pending_beq_used,
      hexp, hnick]
  have hpres : ∀ r : VerificationRow,
      ((if r.id == v.id then useRow now r else r).code == v.code)
        = (r.code == v.code) := by
    intro r
    by_cases h : (r.id == v.id) = true <;> simp [h, useRow]
  have hfilter2 : (setVerRow v.id (useRow now) db.verifications).filter
      (fun r => r.code == v.code) = [useRow now v] := by
    unfold setVerRow
    rw [filter_map_comm _ _ hpres, hfilter]
    simp
  refine ⟨by rw [hfirst], ?_, ?_⟩
  · rw [hfirst]
    simp [process_backend_confirmation, lookupByCode, latestCreated, hfilter2,
      useRow, vs_used_beq_used]
  · rw [hfirst]
    simp [process_backend_confirmation, lookupByCode, latestCreated, hfilter2,
      useRow, vs_used_beq_used]

/-- Witness for C5: the hypotheses hold on the concrete state `w4db`;
confirming code of its pending row at time 50 and again at time 60
verifies then reports already-verified with the state unchanged. -/
theorem C5_confirmation_idempotent_witness :
    (process_backend_confirmation 50 none pendingRow.code 99 w4db).1.status = "verified"
    ∧ (process_backend_confirmation 60 none pendingRow.code 99
        (process_backend_confirmation 50 none pendingRow.code 99 w4db).2).1.status
      = "already_verified"
    ∧ (process_backend_confirmation 60 none pendingRow.code 99
        (process_backend_confirmation 50 none pendingRow.code 99 w4db).2).2
      = (process_backend_confirmation 50 none pendingRow.code 99 w4db).2 :=
  C5_confirmation_idempotent w4db 50 60 none 99 pendingRow
    (by decide) rfl (by decide) rfl

/-- C6: a pending attempt whose TTL has elapsed is lazily expired by both
confirmation paths — the backend confirmation reports "expired" and the
self-service poll replies with the expired outcome, both flip exactly
that row to `expired`, and neither touches the users table. -/
theorem C6_expiry_both_paths (db : VDB) (now : Int) (username : Option String)
    (pid : Int) (fetch : FetchOutcome) (v : VerificationRow)
    (hpend : v.status = VerificationStatus.pending)
    (hexp : v.expires_at < now)
    (hsvc : lookupByCode v.code db = some v)
    (hpoll : lookupPendingFor v.telegram_id db = some v) :
    (process_backend_confirmation now username v.code pid db).1.status = "expired"
    ∧ (process_backend_confirmation now username v.code pid db).2.verifications
        = setVerRow v.id expireRow db.verifications
    ∧ (process_backend_confirmation now username v.code pid db).2.users = db.users
    ∧ (check_verification_status now v.telegram_id fetch db).1 = PollReply.code_expired
    ∧ (check_verification_status now v.telegram_id fetch db).2.verifications
        = setVerRow v.id expireRow db.verifications
    ∧ (check_verification_status now v.telegram_id fetch db).2.users = db.users := by
  have hbe : process_backend_confirmation now username v.code pid db
      = ({ status := "expired", username := v.roblox_nick },
         { db with verifications := setVerRow v.id expireRow db.verifications }) := by
    simp [process_backend_confirmation, hsvc, hpend, vs_pending_beq_used, hexp,
      expireRow]
  have hpo : check_verification_status now v.telegram_id fetch db
      = (PollReply.code_expired,
         { db with verifications := setVerRow v.id expireRow db.verifications }) := by
    simp [check_verification_status, hpoll, hexp]
  rw [hbe, hpo]
  exact ⟨rfl, rfl, rfl, rfl, rfl, rfl⟩

/-- Witness for C6: the hypotheses hold on `c6db`, whose pending row has
`expires_at = 20` against `now = 50`. -/
theorem C6_expiry_both_paths_witness :
    (process_backend_confirmation 50 none stalePendingRow.code 99 c6db).1.status = "expired"
    ∧ (process_backend_confirmation 50 none stalePendingRow.code 99 c6db).2.verifications
        = setVerRow stalePendingRow.id expireRow c6db.verifications
    ∧ (process_backend_confirmation 50 none stalePendingRow.code 99 c6db).2.users
        = c6db.users
    ∧ (check_verification_status 50 stalePendingRow.telegram_id
        FetchOutcome.svcError c6db).1 = PollReply.code_expired
    ∧ (check_verification_status 50 stalePendingRow.telegram_id
        FetchOutcome.svcError c6db).2.verifications
        = setVerRow stalePendingRow.id expireRow c6db.verifications
    ∧ (check_verification_status 50 stalePendingRow.telegram_id
        FetchOutcome.svcError c6db).2.users = c6db.users :=
  C6_expiry_both_paths c6db 50 none 99 FetchOutcome.svcError stalePendingRow
    rfl (by decide) (by decide) (by decide)

/-- Rewrites for `BEq` on the purchase status enum. -/
theorem ps_confirmed_beq_confirmed :
    (PurchaseStatus.confirmed == PurchaseStatus.confirmed) = true := rfl

/-- Fact: `cancelled == confirmed` is false. -/
theorem ps_cancelled_beq_confirmed :
    (PurchaseStatus.cancelled == PurchaseStatus.confirmed) = false := rfl

/-- Fact: `cancelled == pending` is false. -/
theorem ps_cancelled_beq_pending :
    (PurchaseStatus.cancelled == PurchaseStatus.pending) = false := rfl

/-- Fact: `pending == confirmed` is false. -/
theorem ps_pending_beq_confirmed :
    (PurchaseStatus.pending == PurchaseStatus.confirmed) = false := rfl

/-- Fact: `pending == pending` is true. -/
theorem ps_pending_beq_pending :
    (PurchaseStatus.pending == PurchaseStatus.pending) = true := rfl

/-- The balance bootstrap leaves the items table untouched. -/
theorem ensureBalance_items (uid : Int) (db : PDB) :
    (ensureBalance uid db).items = db.items := by
  unfold ensureBalance
  cases db.balances.find? (fun b => b.user_id == uid) <;> rfl

/-- The balance bootstrap leaves the purchase-requests table untouched. -/
theorem ensureBalance_purchase_requests (uid : Int) (db : PDB) :
    (ensureBalance uid db).purchase_requests = db.purchase_requests := by
  unfold ensureBalance
  cases db.balances.find? (fun b => b.user_id == uid) <;> rfl

/-- The copies-sold bump leaves the item keys unchanged. -/
theorem setItemRow_bump_ids (iid : String) (l : List ItemRow) :
    ((setItemRow iid (fun i => { i with copies_sold := i.copies_sold + 1 }) l).map
        (fun i => i.item_id))
      = l.map (fun i => i.item_id) := by
  induction l with
  | nil => rfl
  | cons a t ih =>
    simp only [setItemRow, List.map_cons] at ih ⊢
    refine congrArg₂ List.cons ?_ ih
    by_cases h : (a.item_id == iid) = true
    · rw [if_pos h]
    · rw [if_neg h]

/-- With primary-key-unique item ids, an element sharing the key of the
`find?` result is that result. -/
theorem eq_of_find?_of_nodup_keys (iid : String) (item : ItemRow) :
    ∀ l : List ItemRow,
      l.find? (fun i => i.item_id == iid) = some item →
      ((l.map (fun i => i.item_id)).Nodup) →
      ∀ b ∈ l, b.item_id = iid → b = item := by
  intro l
  induction l with
  | nil => intro h; simp at h
  | cons a t ih =>
    intro hfind hnd b hb hkey
    rw [List.map_cons, List.nodup_cons] at hnd
    by_cases ha : (a.item_id == iid) = true
    · have haitem : a = item := by
        simpa [List.find?_cons, ha] using hfind
      rcases List.mem_cons.mp hb with hba | hbt
      · exact hba.trans haitem
      · exact absurd (List.mem_map.mpr ⟨b, hbt, hkey.trans (eq_of_beq ha).symm⟩)
          hnd.1
    · have hfa : (a.item_id == iid) = false := Bool.of_not_eq_true ha
      rcases List.mem_cons.mp hb with hba | hbt
      · exact absurd (hba ▸ hkey) (by simpa using ha)
      · exact ih (by simpa [List.find?_cons, hfa] using hfind) hnd.2 b hbt hkey

/-- Bumping the item found by `getItem` under a failed sold-out check
preserves the inventory-cap bound on every item. -/
theorem capOK_after_bump (iid : String) (item : ItemRow) (l : List ItemRow)
    (hfind : l.find? (fun i => i.item_id == iid) = some item)
    (hnd : (l.map (fun i => i.item_id)).Nodup)
    (hnot : soldOut item = false)
    (hcap : ∀ i ∈ l, ∀ t : Int, i.copies_total = some t → i.copies_sold ≤ t) :
    ∀ i ∈ setItemRow iid (fun i => { i with copies_sold := i.copies_sold + 1 }) l,
      ∀ t : Int, i.copies_total = some t → i.copies_sold ≤ t := by
  intro i hi t ht
  unfold setItemRow at hi
  rcases List.mem_map.mp hi with ⟨b, hb, hbe⟩
  by_cases hkey : (b.item_id == iid) = true
  · have hbitem : b = item :=
      eq_of_find?_of_nodup_keys iid item l hfind hnd b hb (eq_of_beq hkey)
    rw [if_pos hkey] at hbe
    subst hbe
    subst hbitem
    simp only at ht
    have hlt : ¬ (t ≤ b.copies_sold) := by
      intro hle
      rw [soldOut, ht] at hnot
      simp [hle] at hnot
    simp only
    omega
  · rw [if_neg hkey] at hbe
    subst hbe
    exact hcap b hb t ht

/-- Every `confirm_purchase` call either leaves the items table alone or
bumps exactly the item it found and checked against its cap. -/
theorem confirm_purchase_items_cases (now : Int) (rid : String) (db : PDB) :
    (confirm_purchase now rid db).2.items = db.items
    ∨ ∃ iid item, db.items.find? (fun i => i.item_id == iid) = some item
        ∧ soldOut item = false
        ∧ (confirm_purchase now rid db).2.items
            = setItemRow iid (fun i => { i with copies_sold := i.copies_sold + 1 })
                db.items := by
  unfold confirm_purchase
  cases hreq : getPurchaseRequest rid db with
  | none => exact Or.inl rfl
  | some req =>
    by_cases h1 : (req.status == PurchaseStatus.confirmed) = true
    · simp [h1]
    · simp only [Bool.of_not_eq_true h1, Bool.false_eq_true, if_false]
      by_cases h2 : (req.status == PurchaseStatus.pending) = true
      · simp only [h2, Bool.not_true, Bool.false_eq_true, if_false]
        cases hitem : getItem req.item_id db with
        | none => exact Or.inl rfl
        | some item =>
          by_cases h3 : soldOut item = true
          · simp [h3, ensureBalance_items]
          · have h3f : soldOut item = false := Bool.of_not_eq_true h3
            simp only [h3f, Bool.false_eq_true, if_false]
            refine Or.inr ⟨req.item_id, item, ?_, h3f, ?_⟩
            · simpa [getItem] using hitem
            · have hik : item.item_id = req.item_id := by
                have := List.find?_some (by simpa [getItem] using hitem)
                exact eq_of_beq this
              simp [ensureBalance_items, hik]
      · simp [Bool.of_not_eq_true h2]

/-- A single `confirm_purchase` call preserves item-key uniqueness and
the inventory-cap invariant. -/
theorem confirm_purchase_cap_step (now : Int) (rid : String) (db : PDB)
    (hnd : itemIdsNodup db) (hcap : capOK db) :
    itemIdsNodup (confirm_purchase now rid db).2
    ∧ capOK (confirm_purchase now rid db).2 := by
  rcases confirm_purchase_items_cases now rid db with h | ⟨iid, item, hf, hs, h⟩
  · constructor
    · unfold itemIdsNodup
      rw [h]
      exact hnd
    · intro i hi t ht
      rw [h] at hi
      exact hcap i hi t ht
  · constructor
    · unfold itemIdsNodup
      rw [h, setItemRow_bump_ids]
      exact hnd
    · intro i hi t ht
      rw [h] at hi
      exact capOK_after_bump iid item db.items hf hnd hs hcap i hi t ht

/-- Any sequence of `confirm_purchase` calls preserves item-key
uniqueness and the inventory-cap invariant. -/
theorem confirm_purchase_cap_foldl (calls : List (Int × String)) :
    ∀ db : PDB, itemIdsNodup db → capOK db →
      itemIdsNodup (calls.foldl (fun d c => (confirm_purchase c.1 c.2 d).2) db)
      ∧ capOK (calls.foldl (fun d c => (confirm_purchase c.1 c.2 d).2) db) := by
  induction calls with
  | nil => intro db hnd hcap; exact ⟨hnd, hcap⟩
  | cons c t ih =>
    intro db hnd hcap
    have hstep := confirm_purchase_cap_step c.1 c.2 db hnd hcap
    exact ih _ hstep.1 hstep.2

/-- C7: `confirm_purchase` re-checks the inventory cap at confirmation
time — a pending request on a sold-out capped item is cancelled with
`copies_sold` untouched; a pending request with remaining inventory is
confirmed, `completed_at` stamped, and `copies_sold` incremented by
exactly one; an already-confirmed request is returned with the state
unchanged; a cancelled request yields `None`; and therefore, starting
from items with unique keys respecting their caps, `copies_sold` never
exceeds `copies_total` after any sequence of `confirm_purchase` calls. -/
theorem C7_confirm_purchase_cap (db : PDB) (now : Int) (rid : String) :
    (∀ req, getPurchaseRequest rid db = some req →
      req.status = PurchaseStatus.confirmed →
      confirm_purchase now rid db = (some req, db))
    ∧ (∀ req, getPurchaseRequest rid db = some req →
      req.status = PurchaseStatus.cancelled →
      confirm_purchase now rid db = (none, db))
    ∧ (∀ req item t, getPurchaseRequest rid db = some req →
      req.status = PurchaseStatus.pending →
      getItem req.item_id db = some item →
      item.copies_total = some t → t ≤ item.copies_sold →
      (confirm_purchase now rid db).1
          = some { req with status := PurchaseStatus.cancelled }
        ∧ (confirm_purchase now rid db).2.items = db.items
        ∧ (confirm_purchase now rid db).2.purchase_requests
            = setPurchaseRow rid (fun r => { r with status := PurchaseStatus.cancelled })
                db.purchase_requests)
    ∧ (∀ req item, getPurchaseRequest rid db = some req →
      req.status = PurchaseStatus.pending →
      getItem req.item_id db = some item →
      soldOut item = false →
      (confirm_purchase now rid db).1
          = some { req with status := PurchaseStatus.confirmed,
                            completed_at := some now }
        ∧ (confirm_purchase now rid db).2.items
            = setItemRow item.item_id
                (fun i => { i with copies_sold := i.copies_sold + 1 }) db.items
        ∧ (confirm_purchase now rid db).2.purchase_requests
            = setPurchaseRow rid
                (fun r => { r with status := PurchaseStatus.confirmed,
                                   completed_at := some now })
                db.purchase_requests)
    ∧ (itemIdsNodup db → capOK db →
        itemIdsNodup (confirm_purchase now rid db).2
        ∧ capOK (confirm_purchase now rid db).2)
    ∧ (∀ calls : List (Int × String), itemIdsNodup db → capOK db →
        capOK (calls.foldl (fun d c => (confirm_purchase c.1 c.2 d).2) db)) := by
  refine ⟨?_, ?_, ?_, ?_, ?_, ?_⟩
  · intro req hreq hst
    simp [confirm_purchase, hreq, hst, ps_confirmed_beq_confirmed]
  · intro req hreq hst
    simp [confirm_purchase, hreq, hst, ps_cancelled_beq_confirmed,
      ps_cancelled_beq_pending]
  · intro req item t hreq hst hitem hct hsold
    have hso : soldOut item = true := by
      rw [soldOut, hct]
      exact decide_eq_true hsold
    refine ⟨?_, ?_, ?_⟩ <;>
      simp [confirm_purchase, hreq, hst, ps_pending_beq_confirmed,
        ps_pending_beq_pending, hitem, hso, ensureBalance_items,
        ensureBalance_purchase_requests]
  · intro req item hreq hst hitem hso
    refine ⟨?_, ?_, ?_⟩ <;>
      simp [confirm_purchase, hreq, hst, ps_pending_beq_confirmed,
        ps_pending_beq_pending, hitem, hso, ensureBalance_items,
        ensureBalance_purchase_requests]
  · exact confirm_purchase_cap_step now rid db
  · intro calls hnd hcap
    exact (confirm_purchase_cap_foldl calls db hnd hcap).2

/-- Witness for C7: on `c7db` the hypotheses are discharged concretely —
confirming the already-confirmed `req-c` returns it unchanged, and the
cap invariant survives confirming `req-p` twice and `req-x` once. -/
theorem C7_confirm_purchase_cap_witness :
    confirm_purchase 5 "req-c" c7db
      = (some { request_id := "req-c", user_id := 10, item_id := "hat",
                status := PurchaseStatus.confirmed, idempotency_key := "k2",
                created_at := 0, completed_at := some 1 }, c7db)
    ∧ capOK ([(5, "req-p"), (6, "req-p"), (7, "req-x")].foldl
        (fun d c => (confirm_purchase c.1 c.2 d).2) c7db) :=
  ⟨(C7_confirm_purchase_cap c7db 5 "req-c").1 _ (by decide) rfl,
   (C7_confirm_purchase_cap c7db 5 "req-p").2.2.2.2.2
     [(5, "req-p"), (6, "req-p"), (7, "req-x")]
     (by unfold itemIdsNodup; decide)
     (by
       intro i hi t ht
       simp only [c7db, List.mem_singleton] at hi
       subst hi
       have h1 : some (1 : Int) = some t := ht
       have h2 : (1 : Int) = t := by injection h1
       have h3 : (0 : Int) ≤ t := by omega
       exact h3)⟩

/-- Appending a first match to a match-free list makes `find?` return it. -/
theorem find?_append_singleton {α : Type} (p : α → Bool) (a : α) :
    ∀ l : List α, l.find? p = none → p a = true →
      (l ++ [a]).find? p = some a := by
  intro l
  induction l with
  | nil =>
    intro _ hp
    simp [List.find?_cons, hp]
  | cons b t ih =>
    intro h hp
    have hb : p b = false := by
      cases hpb : p b
      · rfl
      · rw [List.find?_cons, hpb] at h
        cases h
    rw [List.find?_cons, hb] at h
    rw [List.cons_append, List.find?_cons, hb]
    exact ih h hp

/-- A list on which `find?` fails filters to the empty list. -/
theorem filter_eq_nil_of_find?_none {α : Type} (p : α → Bool) :
    ∀ l : List α, l.find? p = none → l.filter p = [] := by
  intro l
  induction l with
  | nil => intro _; rfl
  | cons b t ih =>
    intro h
    have hb : p b = false := by
      cases hpb : p b
      · rfl
      · rw [List.find?_cons, hpb] at h
        cases h
    rw [List.find?_cons, hb] at h
    rw [List.filter_cons, hb]
    simpa using ih h

/-- C8: purchase creation deduplicates on the idempotency key — after a
first successful `create_purchase_request` with a fresh key, a second
call with the same key (any other arguments, in particular a different
request_id) returns the request created by the first call and the state
unchanged: no second row, no error, both calls bear the first call's
request_id, and exactly one stored row carries that key. -/
theorem C8_purchase_creation_idempotent (db : PDB) (now now2 : Int)
    (rid rid2 : String) (uid uid2 : Int) (iid iid2 key : String)
    (r1 : PurchaseRow) (db1 : PDB)
    (hfresh : db.purchase_requests.find? (fun r => r.idempotency_key == key) = none)
    (hfirst : create_purchase_request now rid uid iid key db = Except.ok (r1, db1)) :
    create_purchase_request now2 rid2 uid2 iid2 key db1 = Except.ok (r1, db1)
    ∧ r1.request_id = rid
    ∧ (db1.purchase_requests.filter (fun r => r.idempotency_key == key)).length = 1 := by
  rw [create_purchase_request, hfresh] at hfirst
  cases hitem : getItem iid db with
  | none =>
    rw [hitem] at hfirst
    simp only at hfirst
    cases hfirst
  | some item =>
    rw [hitem] at hfirst
    simp only at hfirst
    by_cases hso : soldOut item = true
    · rw [if_pos hso] at hfirst
      cases hfirst
    · rw [if_neg hso] at hfirst
      injection hfirst with hfirst
      injection hfirst with h1 h2
      subst h1
      subst h2
      refine ⟨?_, rfl, ?_⟩
      · simp only [create_purchase_request]
        rw [find?_append_singleton _ _ db.purchase_requests hfresh (by simp)]
      · simp only [List.filter_append,
          filter_eq_nil_of_find?_none _ db.purchase_requests hfresh,
          List.nil_append, List.filter_cons]
        simp

/-- Witness for C8: on `c8db` the first creation with key "key-1"
succeeds; the second call with a different request_id returns the first
request and state unchanged. -/
theorem C8_purchase_creation_idempotent_witness :
    create_purchase_request 1 "req-b" 11 "hat" "key-1"
        { items := [{ item_id := "hat", name := "Hat", copies_total := some 10,
                      copies_sold := 0 }],
          purchase_requests :=
            [{ request_id := "req-a", user_id := 10, item_id := "hat",
               status := PurchaseStatus.pending, idempotency_key := "key-1",
               created_at := 0, completed_at := none }],
          balances := [] }
      = Except.ok
          ({ request_id := "req-a", user_id := 10, item_id := "hat",
             status := PurchaseStatus.pending, idempotency_key := "key-1",
             created_at := 0, completed_at := none },
           { items := [{ item_id := "hat", name := "Hat", copies_total := some 10,
                         copies_sold := 0 }],
             purchase_requests :=
               [{ request_id := "req-a", user_id := 10, item_id := "hat",
                  status := PurchaseStatus.pending, idempotency_key := "key-1",
                  created_at := 0, completed_at := none }],
             balances := [] })
    ∧ ({ request_id := "req-a", user_id := 10, item_id := "hat",
         status := PurchaseStatus.pending, idempotency_key := "key-1",
         created_at := 0, completed_at := none } : PurchaseRow).request_id = "req-a" :=
  have h := C8_purchase_creation_idempotent c8db 0 1 "req-a" "req-b" 10 11
    "hat" "hat" "key-1"
    { request_id := "req-a", user_id := 10, item_id := "hat",
      status := PurchaseStatus.pending, idempotency_key := "key-1",
      created_at := 0, completed_at := none }
    { items := [{ item_id := "hat", name := "Hat", copies_total := some 10,
                  copies_sold := 0 }],
      purchase_requests :=
        [{ request_id := "req-a", user_id := 10, item_id := "hat",
           status := PurchaseStatus.pending, idempotency_key := "key-1",
           created_at := 0, completed_at := none }],
      balances := [] }
    rfl rfl
  ⟨h.1, h.2.1⟩

end Bigbob
